import Mathlib

/-!
Verification of the Lemolex video-downloader Python client
(`examples/python-client.py`), focusing on the job-status poller
`LemolexAPI.wait_for_completion` and the payload builders
`LemolexAPI.get_video_info` / `LemolexAPI.download_video`.

The poller is embedded as a function over an explicit environment: a list
of per-iteration events describing what the status query, the progress
sink, and the inter-sample sleep do on that iteration (return normally,
raise an exception, or be hit by a keyboard interrupt).  The function
returns the outcome (or `none` when the supplied environment is exhausted
before the loop exits, i.e. the Python loop would still be running) and a
trace recording how many status queries were issued, which job records the
progress sink was invoked with, and how many cancel requests were sent.
-/

namespace Lemolex

/-- A job record as returned in the `data` field of the status response.
`status` and `error` are the fields `wait_for_completion` reads
(`download['status']`, `download.get('error', ...)`); `progress` and
`filename` are opaque payload carried along so that distinct records can be
distinguished. -/
structure Job where
  status : String
  progress : Nat
  error : Option String
  filename : Option String
  deriving Repr, DecidableEq

/-- The JSON body returned by a successful HTTP status query:
`{success: bool, data: Job | absent, error: string | absent}`. -/
structure ApiResult where
  success : Bool
  data : Option Job
  error : Option String
  deriving Repr, DecidableEq

/-- What the status query (`self.get_download_status`, line 132) does on one
iteration: return a body, raise an `Exception` from `_make_request`
(transport failure / non-2xx), or be hit by a `KeyboardInterrupt` while the
HTTP call is in flight. -/
inductive QueryRes where
  | ok (r : ApiResult)
  | exc (msg : String)
  | interrupt
  deriving Repr, DecidableEq

/-- What the progress sink (`on_progress(download)`, line 141) does if it is
invoked on one iteration: return normally, raise an exception `e`, or be hit
by a `KeyboardInterrupt` during the call. -/
inductive SinkBeh where
  | ok
  | raises (e : String)
  | interrupt
  deriving Repr, DecidableEq

/-- The environment's events for one iteration of the polling loop:
the query result, the sink behaviour (relevant only when a sink was
supplied and a record was obtained), whether a `KeyboardInterrupt` arrives
during `time.sleep(check_interval)` (line 151), and whether the best-effort
`self.cancel_download(download_id)` in the interrupt handler (line 156)
would itself fail. -/
structure StepEnv where
  query : QueryRes
  sink : SinkBeh
  sleepInterrupt : Bool
  cancelFails : Bool
  deriving Repr, DecidableEq

/-- The distinct raise sites of `wait_for_completion`, each carrying the
exact message the code builds there:
* `transport`: the `Exception` from `_make_request` propagating (line 132);
* `apiError`: line 135, `Exception(result.get('error', 'Unknown error'))`;
* `keyError`: `result['data']` with `data` absent (line 137);
* `jobFailed`: line 147, `Exception(download.get('error', 'Download failed'))`;
* `jobCancelled`: line 149, `Exception('Download was cancelled')`;
* `sinkExc`: the sink's own exception propagating uncaught through line 141;
* `interrupted`: the `KeyboardInterrupt` re-raised at line 159. -/
inductive PollError where
  | transport (msg : String)
  | apiError (msg : String)
  | keyError
  | jobFailed (msg : String)
  | jobCancelled (msg : String)
  | sinkExc (e : String)
  | interrupted
  deriving Repr, DecidableEq

/-- How a run of `wait_for_completion` ends: a returned record or a raised
error. -/
inductive Outcome where
  | success (j : Job)
  | error (e : PollError)
  deriving Repr, DecidableEq

/-- Observable side effects of a run: number of status queries started,
the job records the progress sink was invoked with (in order), and the
number of cancel requests issued by the interrupt handler. -/
structure Trace where
  queries : Nat
  sinkCalls : List Job
  cancels : Nat
  deriving Repr, DecidableEq

/-- Embedding of `LemolexAPI.wait_for_completion` (lines 123-159), over an
explicit event environment.  `sinkPresent` is the truthiness of
`on_progress`.  Returns `none` as outcome when the environment list is
exhausted with the loop still running. -/
def wait_for_completion (sinkPresent : Bool) : List StepEnv → Option Outcome × Trace
  | [] => (none, ⟨0, [], 0⟩)
  | step :: rest =>
    match step.query with
    | QueryRes.interrupt =>
        -- KeyboardInterrupt mid-query is caught at line 153:
        -- best-effort cancel, then re-raise.
        (some (Outcome.error PollError.interrupted), ⟨1, [], 1⟩)
    | QueryRes.exc msg =>
        -- the Exception from _make_request is not a KeyboardInterrupt,
        -- so it propagates out of the loop uncaught.
        (some (Outcome.error (PollError.transport msg)), ⟨1, [], 0⟩)
    | QueryRes.ok r =>
        if r.success = false then
          (some (Outcome.error (PollError.apiError (r.error.getD "Unknown error"))),
            ⟨1, [], 0⟩)
        else
          match r.data with
          | none => (some (Outcome.error PollError.keyError), ⟨1, [], 0⟩)
          | some download =>
            match (if sinkPresent then step.sink else SinkBeh.ok) with
            | SinkBeh.raises e =>
                (some (Outcome.error (PollError.sinkExc e)), ⟨1, [download], 0⟩)
            | SinkBeh.interrupt =>
                (some (Outcome.error PollError.interrupted), ⟨1, [download], 1⟩)
            | SinkBeh.ok =>
              let called : List Job := if sinkPresent then [download] else []
              if download.status = "completed" then
                (some (Outcome.success download), ⟨1, called, 0⟩)
              else if download.status = "failed" then
                (some (Outcome.error
                    (PollError.jobFailed (download.error.getD "Download failed"))),
                  ⟨1, called, 0⟩)
              else if download.status = "cancelled" then
                (some (Outcome.error (PollError.jobCancelled "Download was cancelled")),
                  ⟨1, called, 0⟩)
              else
                if step.sleepInterrupt then
                  (some (Outcome.error PollError.interrupted), ⟨1, called, 1⟩)
                else
                  let res := wait_for_completion sinkPresent rest
                  (res.1, ⟨1 + res.2.queries, called ++ res.2.sinkCalls, res.2.cancels⟩)

/-- A status such that the loop does not exit at the status checks of
lines 144-149. -/
def nonTerminal (s : String) : Bool :=
  !(s == "completed") && !(s == "failed") && !(s == "cancelled")

/-- An iteration on which the loop simply proceeds: the query returns a
successful body carrying a record with a non-terminal status, the sink (if
invoked) returns normally, and the sleep is not interrupted. -/
def normalStep (step : StepEnv) : Bool :=
  match step.query with
  | QueryRes.ok r =>
      r.success &&
      (match r.data with
       | some j => nonTerminal j.status
       | none => false) &&
      (match step.sink with
       | SinkBeh.ok => true
       | _ => false) &&
      !step.sleepInterrupt
  | _ => false

/-- The job record delivered by an iteration's query, when the query
succeeds with a record. -/
def stepJob (step : StepEnv) : Option Job :=
  match step.query with
  | QueryRes.ok r => if r.success then r.data else none
  | _ => none

/-- A plain successful sample of record `j`: query returns
`{success: true, data: j}`, sink returns normally, no interrupts. -/
def okStep (j : Job) : StepEnv :=
  ⟨QueryRes.ok ⟨true, some j, none⟩, SinkBeh.ok, false, false⟩

theorem run_append_normal (sp : Bool) (pre env : List StepEnv)
    (h : ∀ s ∈ pre, normalStep s = true) :
    wait_for_completion sp (pre ++ env) =
      ((wait_for_completion sp env).1,
       ⟨pre.length + (wait_for_completion sp env).2.queries,
        (if sp then pre.filterMap stepJob else []) ++ (wait_for_completion sp env).2.sinkCalls,
        (wait_for_completion sp env).2.cancels⟩) := by
  induction pre with
  | nil => simp
  | cons step pre ih =>
    have hstep : normalStep step = true := h step (by simp)
    have hpre : ∀ s ∈ pre, normalStep s = true := fun s hs => h s (by simp [hs])
    obtain ⟨q, sk, si, cf⟩ := step
    cases q with
    | interrupt => simp [normalStep] at hstep
    | exc msg => simp [normalStep] at hstep
    | ok r =>
      obtain ⟨su, d, er⟩ := r
      cases su with
      | false => simp [normalStep] at hstep
      | true =>
        cases d with
        | none => simp [normalStep] at hstep
        | some j =>
          cases sk with
          | raises e => simp [normalStep] at hstep
          | interrupt => simp [normalStep] at hstep
          | ok =>
            cases si with
            | true => simp [normalStep] at hstep
            | false =>
              simp [normalStep, nonTerminal, Bool.and_eq_true, Bool.not_eq_true',
                beq_eq_false_iff_ne] at hstep
              obtain ⟨⟨h1, h2⟩, h3⟩ := hstep
              simp [wait_for_completion, h1, h2, h3, ih hpre, stepJob]
              cases sp <;> simp [Trace.mk.injEq, Prod.ext_iff] <;> omega

/-- The terminal outcome the loop produces on a sample whose record has a
terminal status, mirroring lines 144-149. -/
def terminalOutcome (j : Job) : Outcome :=
  if j.status = "completed" then Outcome.success j
  else if j.status = "failed" then
    Outcome.error (PollError.jobFailed (j.error.getD "Download failed"))
  else Outcome.error (PollError.jobCancelled "Download was cancelled")

theorem run_terminal_first (sp : Bool) (j : Job) (rest : List StepEnv)
    (h : nonTerminal j.status = false) :
    wait_for_completion sp (okStep j :: rest) =
      (some (terminalOutcome j), ⟨1, if sp then [j] else [], 0⟩) := by
  simp only [nonTerminal, Bool.and_eq_false_iff, Bool.not_eq_false', beq_iff_eq] at h
  rcases h with (h | h) | h <;>
    simp [wait_for_completion, okStep, terminalOutcome, h]

/-- C1: over the status-sample sequence
starting → downloading(30%) → downloading(70%) → completed, with a progress
sink supplied, the sink is invoked exactly 4 times, once per sample in that
order (including the final completed sample), and the poller returns the
final completed record as success. -/
theorem poller_happy_path_four_samples (j1 j2 j3 j4 : Job)
    (h1 : j1.status = "starting")
    (h2 : j2.status = "downloading") (hp2 : j2.progress = 30)
    (h3 : j3.status = "downloading") (hp3 : j3.progress = 70)
    (h4 : j4.status = "completed") :
    wait_for_completion true [okStep j1, okStep j2, okStep j3, okStep j4] =
      (some (Outcome.success j4), ⟨4, [j1, j2, j3, j4], 0⟩) := by
  simp [wait_for_completion, okStep, h1, h2, h3, h4]

theorem poller_happy_path_four_samples_witness :
    (Job.mk "starting" 0 none none).status = "starting" ∧
    (Job.mk "downloading" 30 none none).status = "downloading" ∧
    (Job.mk "downloading" 30 none none).progress = 30 ∧
    (Job.mk "downloading" 70 none none).status = "downloading" ∧
    (Job.mk "downloading" 70 none none).progress = 70 ∧
    (Job.mk "completed" 100 none (some "a.mp4")).status = "completed" ∧
    wait_for_completion true
        [okStep (Job.mk "starting" 0 none none),
         okStep (Job.mk "downloading" 30 none none),
         okStep (Job.mk "downloading" 70 none none),
         okStep (Job.mk "completed" 100 none (some "a.mp4"))] =
      (some (Outcome.success (Job.mk "completed" 100 none (some "a.mp4"))),
       ⟨4, [Job.mk "starting" 0 none none, Job.mk "downloading" 30 none none,
            Job.mk "downloading" 70 none none,
            Job.mk "completed" 100 none (some "a.mp4")], 0⟩) :=
  ⟨rfl, rfl, rfl, rfl, rfl, rfl,
   poller_happy_path_four_samples _ _ _ _ rfl rfl rfl rfl rfl rfl⟩

/-- C2: when a sampled record has status `failed` (after any number of
normal non-terminal samples), the poller fails with `JobFailed` carrying the
record's `error` field as message, or the fallback `"Download failed"` when
it is absent; the sink is invoked exactly once for that failing sample (it
is the last entry of the sink-call trace), and no further status queries
occur after that terminal sample (the query count is the prefix length plus
one, whatever follows in the environment). -/
theorem poller_failed_sample (pre : List StepEnv) (j : Job) (post : List StepEnv)
    (hpre : ∀ s ∈ pre, normalStep s = true) (hj : j.status = "failed") :
    wait_for_completion true (pre ++ okStep j :: post) =
      (some (Outcome.error (PollError.jobFailed (j.error.getD "Download failed"))),
       ⟨pre.length + 1, pre.filterMap stepJob ++ [j], 0⟩) := by
  rw [run_append_normal true pre _ hpre]
  simp [wait_for_completion, okStep, hj]

theorem poller_failed_sample_witness :
    (∀ s ∈ ([] : List StepEnv), normalStep s = true) ∧
    (Job.mk "failed" 40 (some "disk full") none).status = "failed" ∧
    wait_for_completion true ([] ++ okStep (Job.mk "failed" 40 (some "disk full") none) :: []) =
      (some (Outcome.error (PollError.jobFailed "disk full")),
       ⟨1, [Job.mk "failed" 40 (some "disk full") none], 0⟩) :=
  ⟨by simp, rfl,
   poller_failed_sample [] (Job.mk "failed" 40 (some "disk full") none) [] (by simp) rfl⟩

/-- C3: a transport error on the first sample propagates immediately: the
outcome is that transport error, exactly one status query was made (no
internal retry, whatever else the environment would have offered), and the
progress sink was never invoked — for any sink behaviour, interrupt flags
and sink presence. -/
theorem poller_transport_error_first_sample (msg : String) (sk : SinkBeh)
    (si cf : Bool) (rest : List StepEnv) (sp : Bool) :
    wait_for_completion sp (⟨QueryRes.exc msg, sk, si, cf⟩ :: rest) =
      (some (Outcome.error (PollError.transport msg)), ⟨1, [], 0⟩) := by
  simp [wait_for_completion]

/-- C4: a `KeyboardInterrupt` arriving during the inter-sample sleep makes
the poller issue exactly one best-effort cancel request and re-raise the
interrupt; the outcome and trace are independent of whether that cancel
request itself fails (`cf` is arbitrary and absent from the right-hand
side). -/
theorem poller_interrupt_during_sleep (pre : List StepEnv) (j : Job)
    (er : Option String) (cf : Bool) (post : List StepEnv)
    (hpre : ∀ s ∈ pre, normalStep s = true)
    (hj : nonTerminal j.status = true) :
    wait_for_completion true
        (pre ++ ⟨QueryRes.ok ⟨true, some j, er⟩, SinkBeh.ok, true, cf⟩ :: post) =
      (some (Outcome.error PollError.interrupted),
       ⟨pre.length + 1, pre.filterMap stepJob ++ [j], 1⟩) := by
  rw [run_append_normal true pre _ hpre]
  simp only [nonTerminal, Bool.and_eq_true, Bool.not_eq_true', beq_eq_false_iff_ne] at hj
  obtain ⟨⟨hc, hf⟩, hx⟩ := hj
  simp [wait_for_completion, hc, hf, hx]

theorem poller_interrupt_during_sleep_witness :
    (∀ s ∈ ([] : List StepEnv), normalStep s = true) ∧
    nonTerminal (Job.mk "downloading" 50 none none).status = true ∧
    wait_for_completion true
        ([] ++ ⟨QueryRes.ok ⟨true, some (Job.mk "downloading" 50 none none), none⟩,
                SinkBeh.ok, true, true⟩ :: []) =
      (some (Outcome.error PollError.interrupted),
       ⟨1, [Job.mk "downloading" 50 none none], 1⟩) :=
  ⟨by simp, rfl,
   poller_interrupt_during_sleep [] (Job.mk "downloading" 50 none none) none true []
     (by simp) rfl⟩

/-- C6: when a sampled record has status `cancelled` (after any number of
normal non-terminal samples), the poller fails with the `JobCancelled`
error — the right-hand side does not mention the record's `error` field, so
the outcome is the same regardless of its contents — and polling stops at
that terminal sample. -/
theorem poller_cancelled_sample (pre : List StepEnv) (j : Job) (post : List StepEnv)
    (hpre : ∀ s ∈ pre, normalStep s = true) (hj : j.status = "cancelled") :
    wait_for_completion true (pre ++ okStep j :: post) =
      (some (Outcome.error (PollError.jobCancelled "Download was cancelled")),
       ⟨pre.length + 1, pre.filterMap stepJob ++ [j], 0⟩) := by
  rw [run_append_normal true pre _ hpre]
  simp [wait_for_completion, okStep, hj]

theorem poller_cancelled_sample_witness :
    (∀ s ∈ ([] : List StepEnv), normalStep s = true) ∧
    (Job.mk "cancelled" 10 (some "some error text") none).status = "cancelled" ∧
    wait_for_completion true
        ([] ++ okStep (Job.mk "cancelled" 10 (some "some error text") none) :: []) =
      (some (Outcome.error (PollError.jobCancelled "Download was cancelled")),
       ⟨1, [Job.mk "cancelled" 10 (some "some error text") none], 0⟩) :=
  ⟨by simp, rfl,
   poller_cancelled_sample [] (Job.mk "cancelled" 10 (some "some error text") none) []
     (by simp) rfl⟩

/-- C7: when the caller-supplied sink raises exception `e` on some sample,
exactly that exception value propagates out of the poller (the outcome
carries `e` unwrapped), the loop terminates immediately — the query count is
the prefix length plus one regardless of what follows in the environment,
so no further sleeping or status queries happen — and no cancel request is
issued.  This holds whatever the record's status and the step's interrupt
flags. -/
theorem poller_sink_exception_propagates (pre : List StepEnv) (j : Job)
    (er : Option String) (e : String) (si cf : Bool) (post : List StepEnv)
    (hpre : ∀ s ∈ pre, normalStep s = true) :
    wait_for_completion true
        (pre ++ ⟨QueryRes.ok ⟨true, some j, er⟩, SinkBeh.raises e, si, cf⟩ :: post) =
      (some (Outcome.error (PollError.sinkExc e)),
       ⟨pre.length + 1, pre.filterMap stepJob ++ [j], 0⟩) := by
  rw [run_append_normal true pre _ hpre]
  simp [wait_for_completion]

theorem poller_sink_exception_propagates_witness :
    (∀ s ∈ ([] : List StepEnv), normalStep s = true) ∧
    wait_for_completion true
        ([] ++ ⟨QueryRes.ok ⟨true, some (Job.mk "downloading" 12 none none), none⟩,
                SinkBeh.raises "sink blew up", false, false⟩ :: []) =
      (some (Outcome.error (PollError.sinkExc "sink blew up")),
       ⟨1, [Job.mk "downloading" 12 none none], 0⟩) :=
  ⟨by simp,
   poller_sink_exception_propagates [] (Job.mk "downloading" 12 none none) none
     "sink blew up" false false [] (by simp)⟩

/-- C8: for an already-terminal job id whose status query deterministically
returns the same terminal record `j` on every sample, any two calls to
`wait_for_completion` (modelled as runs over environments repeating that
sample `n` and `m` times, `n, m ≥ 1`) produce the same terminal outcome,
namely the one determined by `j` alone — the record itself for `completed`,
the corresponding failure for `failed` or `cancelled` — after a single
status query and with no cancel request (no side effect beyond re-reading
the status). -/
theorem poller_idempotent_on_terminal (sp : Bool) (j : Job) (n m : Nat)
    (hterm : nonTerminal j.status = false) (hn : 0 < n) (hm : 0 < m) :
    wait_for_completion sp (List.replicate n (okStep j)) =
      wait_for_completion sp (List.replicate m (okStep j)) ∧
    wait_for_completion sp (List.replicate n (okStep j)) =
      (some (terminalOutcome j), ⟨1, if sp then [j] else [], 0⟩) := by
  obtain ⟨k, rfl⟩ : ∃ k, n = k + 1 := ⟨n - 1, by omega⟩
  obtain ⟨l, rfl⟩ : ∃ l, m = l + 1 := ⟨m - 1, by omega⟩
  rw [List.replicate_succ, List.replicate_succ,
    run_terminal_first sp j _ hterm, run_terminal_first sp j _ hterm]
  exact ⟨rfl, rfl⟩

theorem poller_idempotent_on_terminal_witness :
    nonTerminal (Job.mk "completed" 100 none (some "a.mp4")).status = false ∧
    0 < 1 ∧ 0 < 3 ∧
    wait_for_completion true (List.replicate 1 (okStep (Job.mk "completed" 100 none (some "a.mp4")))) =
      wait_for_completion true (List.replicate 3 (okStep (Job.mk "completed" 100 none (some "a.mp4")))) ∧
    wait_for_completion true (List.replicate 1 (okStep (Job.mk "completed" 100 none (some "a.mp4")))) =
      (some (terminalOutcome (Job.mk "completed" 100 none (some "a.mp4"))),
       ⟨1, [Job.mk "completed" 100 none (some "a.mp4")], 0⟩) := by
  refine ⟨rfl, by decide, by decide, ?_⟩
  exact poller_idempotent_on_terminal true (Job.mk "completed" 100 none (some "a.mp4"))
    1 3 rfl (by decide) (by decide)

/-- C5 counterexample: the claim that the cancel-and-re-raise interrupt
handling is triggered only by an interrupt arriving during the inter-sample
sleep is false: in this one-step environment no sleep interrupt occurs
anywhere (`sleepInterrupt` is `false` on every step), the interrupt arrives
during the status query, and nevertheless the handler fires — a cancel
request is issued and the interrupt is re-raised.  The `except
KeyboardInterrupt` at line 153 wraps the whole loop body (query, sink call
and sleep), not just the sleep. -/
theorem poller_interrupt_not_only_at_sleep :
    (([⟨QueryRes.interrupt, SinkBeh.ok, false, false⟩] : List StepEnv).all
        (fun s => !s.sleepInterrupt)) = true ∧
    wait_for_completion true [⟨QueryRes.interrupt, SinkBeh.ok, false, false⟩] =
      (some (Outcome.error PollError.interrupted), ⟨1, [], 1⟩) := by
  constructor
  · decide
  · simp [wait_for_completion]

/-- C5 amended: the cancel-and-re-raise interrupt handling is triggered by
a `KeyboardInterrupt` arriving anywhere in the loop body — during the
status query, during the sink invocation, or during the inter-sample
sleep — because the `except KeyboardInterrupt` handler wraps the whole
`try` body.  In each of the three cases (after any number of normal
samples) the poller issues exactly one best-effort cancel request and
re-raises the interrupt. -/
theorem poller_interrupt_anywhere_in_body (pre : List StepEnv) (s : StepEnv)
    (post : List StepEnv) (j : Job) (er : Option String)
    (hpre : ∀ x ∈ pre, normalStep x = true)
    (hs : s.query = QueryRes.interrupt ∨
          (s.query = QueryRes.ok ⟨true, some j, er⟩ ∧ s.sink = SinkBeh.interrupt) ∨
          (s.query = QueryRes.ok ⟨true, some j, er⟩ ∧ s.sink = SinkBeh.ok ∧
           nonTerminal j.status = true ∧ s.sleepInterrupt = true)) :
    (wait_for_completion true (pre ++ s :: post)).1 =
        some (Outcome.error PollError.interrupted) ∧
    (wait_for_completion true (pre ++ s :: post)).2.cancels = 1 := by
  rw [run_append_normal true pre _ hpre]
  obtain ⟨q, sk, si, cf⟩ := s
  rcases hs with hs | ⟨hs, hsk⟩ | ⟨hs, hsk, hnt, hsi⟩
  · simp only at hs
    subst hs
    simp [wait_for_completion]
  · simp only at hs hsk
    subst hs; subst hsk
    simp [wait_for_completion]
  · simp only at hs hsk hsi
    subst hs; subst hsk; subst hsi
    simp only [nonTerminal, Bool.and_eq_true, Bool.not_eq_true',
      beq_eq_false_iff_ne] at hnt
    obtain ⟨⟨hc, hf⟩, hx⟩ := hnt
    simp [wait_for_completion, hc, hf, hx]

theorem poller_interrupt_anywhere_in_body_witness :
    (∀ x ∈ ([] : List StepEnv), normalStep x = true) ∧
    ((⟨QueryRes.ok ⟨true, some (Job.mk "downloading" 5 none none), none⟩,
       SinkBeh.interrupt, false, false⟩ : StepEnv).query =
        QueryRes.ok ⟨true, some (Job.mk "downloading" 5 none none), none⟩ ∧
     (⟨QueryRes.ok ⟨true, some (Job.mk "downloading" 5 none none), none⟩,
       SinkBeh.interrupt, false, false⟩ : StepEnv).sink = SinkBeh.interrupt) ∧
    (wait_for_completion true
        ([] ++ (⟨QueryRes.ok ⟨true, some (Job.mk "downloading" 5 none none), none⟩,
                SinkBeh.interrupt, false, false⟩ : StepEnv) :: [])).1 =
      some (Outcome.error PollError.interrupted) ∧
    (wait_for_completion true
        ([] ++ (⟨QueryRes.ok ⟨true, some (Job.mk "downloading" 5 none none), none⟩,
                SinkBeh.interrupt, false, false⟩ : StepEnv) :: [])).2.cancels = 1 :=
  ⟨by simp, ⟨rfl, rfl⟩,
   poller_interrupt_anywhere_in_body [] _ [] (Job.mk "downloading" 5 none none) none
     (by simp) (Or.inr (Or.inl ⟨rfl, rfl⟩))⟩

/-- Python truthiness of an optional string argument (`if cookies:` on an
`Optional[str]`): `None` and the empty string are falsy, every other string
is truthy. -/
def truthyStr : Option String → Bool
  | none => false
  | some s => !(s == "")

/-- The JSON payload built by `LemolexAPI.get_video_info` (lines 54-66),
as the association list of key/value pairs in insertion order. -/
def get_video_info (url : String)
    (cookies cookies_from_browser user_agent : Option String) :
    List (String × String) :=
  let data := [("url", url)]
  let data := if truthyStr cookies
    then data ++ [("cookies", cookies.getD "")] else data
  let data := if truthyStr cookies_from_browser
    then data ++ [("cookiesFromBrowser", cookies_from_browser.getD "")] else data
  let data := if truthyStr user_agent
    then data ++ [("userAgent", user_agent.getD "")] else data
  data

/-- The JSON payload built by `LemolexAPI.download_video` (lines 68-97),
as the association list of key/value pairs in insertion order. -/
def download_video (url format quality : String)
    (output_path filename cookies cookies_from_browser user_agent : Option String) :
    List (String × String) :=
  let data := [("url", url), ("format", format), ("quality", quality)]
  let data := if truthyStr output_path
    then data ++ [("outputPath", output_path.getD "")] else data
  let data := if truthyStr filename
    then data ++ [("filename", filename.getD "")] else data
  let data := if truthyStr cookies
    then data ++ [("cookies", cookies.getD "")] else data
  let data := if truthyStr cookies_from_browser
    then data ++ [("cookiesFromBrowser", cookies_from_browser.getD "")] else data
  let data := if truthyStr user_agent
    then data ++ [("userAgent", user_agent.getD "")] else data
  data

/-- C9: for both `get_video_info` and `download_video`, the outbound
payload always carries the mandatory fields (`url`; and for
`download_video` also `format` and `quality`), and each optional option's
key (`outputPath`, `filename`, `cookies`, `cookiesFromBrowser`,
`userAgent`) maps to that option's value if the option is present and is
absent from the mapping otherwise; the keys are pairwise distinct, so the
payload is determined as a mapping (order-irrelevant) by these lookups. -/
theorem payload_builder_optional_fields (url fmt q : String)
    (op fn c cb ua : Option String) :
    ((get_video_info url c cb ua).lookup "url" = some url ∧
     (get_video_info url c cb ua).lookup "cookies" =
        (if truthyStr c then some (c.getD "") else none) ∧
     (get_video_info url c cb ua).lookup "cookiesFromBrowser" =
        (if truthyStr cb then some (cb.getD "") else none) ∧
     (get_video_info url c cb ua).lookup "userAgent" =
        (if truthyStr ua then some (ua.getD "") else none) ∧
     ((get_video_info url c cb ua).map Prod.fst).Nodup) ∧
    ((download_video url fmt q op fn c cb ua).lookup "url" = some url ∧
     (download_video url fmt q op fn c cb ua).lookup "format" = some fmt ∧
     (download_video url fmt q op fn c cb ua).lookup "quality" = some q ∧
     (download_video url fmt q op fn c cb ua).lookup "outputPath" =
        (if truthyStr op then some (op.getD "") else none) ∧
     (download_video url fmt q op fn c cb ua).lookup "filename" =
        (if truthyStr fn then some (fn.getD "") else none) ∧
     (download_video url fmt q op fn c cb ua).lookup "cookies" =
        (if truthyStr c then some (c.getD "") else none) ∧
     (download_video url fmt q op fn c cb ua).lookup "cookiesFromBrowser" =
        (if truthyStr cb then some (cb.getD "") else none) ∧
     (download_video url fmt q op fn c cb ua).lookup "userAgent" =
        (if truthyStr ua then some (ua.getD "") else none) ∧
     ((download_video url fmt q op fn c cb ua).map Prod.fst).Nodup) := by
  cases hc : truthyStr c <;> cases hcb : truthyStr cb <;> cases hua : truthyStr ua <;>
    cases hop : truthyStr op <;> cases hfn : truthyStr fn <;>
      simp [get_video_info, download_video, hc, hcb, hua, hop, hfn, List.lookup]

/-- C10: passing an optional argument as the empty string produces exactly
the same payload as omitting it, for every optional parameter of
`get_video_info` (`cookies`, `cookiesFromBrowser`, `userAgent`) and of
`download_video` (`outputPath`, `filename`, `cookies`,
`cookiesFromBrowser`, `userAgent`): presence is tested by Python
truthiness, and the empty string is falsy (for `Optional[str]` arguments
the empty string is the only falsy value besides `None`). -/
theorem payload_empty_string_like_absent (url fmt q : String)
    (op fn c cb ua : Option String) :
    get_video_info url (some "") cb ua = get_video_info url none cb ua ∧
    get_video_info url c (some "") ua = get_video_info url c none ua ∧
    get_video_info url c cb (some "") = get_video_info url c cb none ∧
    download_video url fmt q (some "") fn c cb ua =
      download_video url fmt q none fn c cb ua ∧
    download_video url fmt q op (some "") c cb ua =
      download_video url fmt q op none c cb ua ∧
    download_video url fmt q op fn (some "") cb ua =
      download_video url fmt q op fn none cb ua ∧
    download_video url fmt q op fn c (some "") ua =
      download_video url fmt q op fn c none ua ∧
    download_video url fmt q op fn c cb (some "") =
      download_video url fmt q op fn c cb none :=
  ⟨rfl, rfl, rfl, rfl, rfl, rfl, rfl, rfl⟩

end Lemolex
